import Mathlib

/-!
Shallow embedding of the analysis pipeline of `app.py` (Nigeria network
coverage dashboard).

The app loads a CSV of network sites into a pandas dataframe, and on
"Analyze Location" computes a `distance_km` column with geopy's
`geodesic(...).km`, filters by a buffer radius (unless the "no distance
limit" checkbox is set), labels each remaining row with a `Confidence`
string, and drives all twelve tabs from the resulting `nearby` frame.

The geodesic distance itself is a third-party floating-point routine; it
enters the model as an explicit function parameter `geo` of type
`DistanceFn`, applied exactly where `app.py` applies it.  Everything
downstream of the distance column (filtering, confidence labelling,
coverage status, nearest-distance metric, tower recommendation) is pure
comparison logic and is embedded directly, with ℚ for the numeric values.
-/

namespace CoverageApp

/-- A row of the network CSV.  The column names are locked at lines 63-66
of `app.py` (`Latitude`, `Longitude`, `Network_Operator`,
`Network_Generation`). -/
structure Site where
  latitude : ℚ
  longitude : ℚ
  network_operator : String
  network_generation : String
deriving DecidableEq

/-- The per-analysis configuration captured from the sidebar into session
state (lines 80-85 of `app.py`): the entered coordinates, the buffer
radius, and the "No distance limit" checkbox. -/
structure Query where
  lat0 : ℚ
  lon0 : ℚ
  radius : ℚ
  no_limit : Bool
deriving DecidableEq

/-- The type of the distance routine `fun p1 p2 => geodesic(p1, p2).km`
(line 115 of `app.py`).  geopy's geodesic is an external floating-point
library routine, so it is a parameter of the model, applied exactly at the
places `app.py` applies it. -/
abbrev DistanceFn := (ℚ × ℚ) → (ℚ × ℚ) → ℚ

/-- Lines 114-117 of `app.py`: assign the `distance_km` column, pairing
every row `r` with `geo ((lat0, lon0)) ((r.Latitude, r.Longitude))`. -/
def assignDistance (geo : DistanceFn) (q : Query) (df : List Site) : List (Site × ℚ) :=
  df.map (fun r => (r, geo (q.lat0, q.lon0) (r.latitude, r.longitude)))

/-- Lines 119-122 of `app.py`: `nearby = df.copy()` when the no-limit
checkbox is set, else `nearby = df[df["distance_km"] <= radius].copy()`. -/
def nearby (geo : DistanceFn) (q : Query) (df : List Site) : List (Site × ℚ) :=
  if q.no_limit then assignDistance geo q df
  else (assignDistance geo q df).filter (fun rd => decide (rd.2 ≤ q.radius))

/-- The three values of the `Confidence` column (lines 125-127). -/
inductive Confidence where
  | High
  | Medium
  | Low
deriving DecidableEq

/-- Lines 125-127 of `app.py`: the per-row confidence label
`"High" if d <= 5 else "Medium" if d <= 20 else "Low"`. -/
def confidenceOf (d : ℚ) : Confidence :=
  if d ≤ 5 then .High else if d ≤ 20 then .Medium else .Low

/-- Line 125 of `app.py`: `nearby["Confidence"] = nearby["distance_km"].apply(...)`,
attaching to every nearby row the label computed from its own distance. -/
def withConfidence (rows : List (Site × ℚ)) : List (Site × ℚ × Confidence) :=
  rows.map (fun rd => (rd.1, rd.2, confidenceOf rd.2))

/-- The full per-analysis result frame: `nearby` with its `distance_km`
and `Confidence` columns, as consumed by the results table (lines
178-183) and the maps. -/
def analyzeFull (geo : DistanceFn) (q : Query) (df : List Site) :
    List (Site × ℚ × Confidence) :=
  withConfidence (nearby geo q df)

/-- The coverage decision every tab makes (lines 170-173, 189-192,
198, 206-210 of `app.py`): coverage exists iff `nearby` is non-empty. -/
def covered (geo : DistanceFn) (q : Query) (df : List Site) : Bool :=
  !(nearby geo q df).isEmpty

/-- Line 198 of `app.py`:
`gap_status = "No Coverage" if nearby.empty else "Partial Coverage"`. -/
def gap_status (geo : DistanceFn) (q : Query) (df : List Site) : String :=
  if (nearby geo q df).isEmpty then "No Coverage" else "Partial Coverage"

/-- Line 200 of `app.py`: `None if nearby.empty else nearby["distance_km"].min()`,
the "Nearest Network (km)" metric. -/
def nearestKm (geo : DistanceFn) (q : Query) (df : List Site) : Option ℚ :=
  ((nearby geo q df).map Prod.snd).min?

/-- Lines 205-210 of `app.py` (New Tower Recommendation tab): when
`nearby` is empty the app writes `Recommended Location: {lat0}, {lon0}`,
i.e. recommends exactly the stored query coordinates; otherwise no
location is recommended (only the advice to densify existing sites). -/
def recommendation (geo : DistanceFn) (q : Query) (df : List Site) : Option (ℚ × ℚ) :=
  if (nearby geo q df).isEmpty then some (q.lat0, q.lon0) else none

/-- Lines 73-85 and 108-127 of `app.py` taken together: the sidebar
number inputs carry no `min_value`/`max_value` bounds and no range check
exists anywhere in the file, so whatever pair is entered is stored in
session state and passed unchanged into the distance computation. -/
def analyzeLocation (geo : DistanceFn) (df : List Site)
    (lat lon radius : ℚ) (no_limit : Bool) : List (Site × ℚ × Confidence) :=
  analyzeFull geo ⟨lat, lon, radius, no_limit⟩ df

/-- The confidence tiering exactly as claim C3 words it, with the
Medium/Low boundary `t` left as a parameter ("configurable threshold
(15 or 20 km)"): `d ≤ 5 → High`; `5 < d ≤ t → Medium`; else `Low`. -/
def tierSpec (t d : ℚ) : Confidence :=
  if d ≤ 5 then .High else if d ≤ t then .Medium else .Low

/-- A cell of the pandas dataframe: numeric or text. -/
inductive Cell where
  | num (q : ℚ)
  | str (s : String)
deriving DecidableEq

/-- Numeric view of a cell, as used when a row's `Latitude`/`Longitude`
entries are read (line 115 of `app.py`). -/
def Cell.asNum : Cell → ℚ
  | num q => q
  | str _ => 0

/-- The loaded pandas dataframe `df` itself (column names plus rows), the
object mutated by the column assignment at line 114 of `app.py`. -/
structure DataFrame where
  cols : List String
  rows : List (List Cell)
deriving DecidableEq

/-- Index of a named column. -/
def DataFrame.colIdx (df : DataFrame) (name : String) : Nat :=
  df.cols.findIdx (fun c => c == name)

/-- Read the cell of `row` under the column `name`. -/
def DataFrame.getCell (df : DataFrame) (row : List Cell) (name : String) : Cell :=
  row.getD (df.colIdx name) (Cell.str "")

/-- pandas `df[name] = vals`: replaces the column in place when it is
already present, otherwise appends it on the right. -/
def DataFrame.setColumn (df : DataFrame) (name : String) (vals : List Cell) : DataFrame :=
  if df.cols.contains name then
    { cols := df.cols
      rows := (df.rows.zip vals).map (fun rv => rv.1.set (df.colIdx name) rv.2) }
  else
    { cols := df.cols ++ [name]
      rows := (df.rows.zip vals).map (fun rv => rv.1 ++ [rv.2]) }

/-- Lines 114-117 of `app.py` acting on the dataframe itself:
`df["distance_km"] = df.apply(lambda r: geodesic((lat0, lon0), (r[LAT], r[LON])).km, axis=1)`,
i.e. a new `distance_km` column is assigned to the loaded dataframe. -/
def assignDistanceColumn (geo : DistanceFn) (q : Query) (df : DataFrame) : DataFrame :=
  df.setColumn "distance_km"
    (df.rows.map (fun r => Cell.num (geo (q.lat0, q.lon0)
      ((df.getCell r "Latitude").asNum, (df.getCell r "Longitude").asNum))))

/-- Number of sites a resolver attributes to the region named `g`. -/
def regionCount (resolve : Site → Option String) (sites : List Site) (g : String) : Nat :=
  sites.countP (fun s => decide (resolve s = some g))

/-- Number of sites the resolver attributes to no region. -/
def unknownCount (resolve : Site → Option String) (sites : List Site) : Nat :=
  sites.countP (fun s => decide (resolve s = none))

/-- Modelled from the spec: the Density Aggregator of §4.5 is not
implemented in `src/app.py` (the Coverage Density tab, lines 215-216,
only prints a placeholder message), so it is modelled from the spec's
words: for every site, resolve its region (or drop it as Unknown) and
count sites per region, with every region of the collection appearing in
the report even when its count is zero. -/
def aggregate (resolve : Site → Option String) (regions : List String)
    (sites : List Site) : List (String × Nat) :=
  regions.map (fun g => (g, regionCount resolve sites g))

end CoverageApp

namespace CoverageApp

/-- C1: with the no-distance-limit checkbox off, a site appears in the
`nearby` frame iff it is a dataset row whose computed distance to the
query point is at most the radius. -/
theorem claim_C1_nearby_is_radius_filter (geo : DistanceFn) (la lo r : ℚ)
    (df : List Site) (s : Site) :
    s ∈ (nearby geo ⟨la, lo, r, false⟩ df).map Prod.fst ↔
      s ∈ df ∧ geo (la, lo) (s.latitude, s.longitude) ≤ r := by
  simp only [nearby, assignDistance, if_neg Bool.false_ne_true, List.mem_map,
    List.mem_filter, decide_eq_true_eq]
  constructor
  · rintro ⟨x, ⟨⟨b, hb, rfl⟩, hle⟩, hxs⟩
    obtain rfl : b = s := hxs
    exact ⟨hb, hle⟩
  · rintro ⟨hs, hle⟩
    exact ⟨(s, geo (la, lo) (s.latitude, s.longitude)), ⟨⟨s, hs, rfl⟩, hle⟩, rfl⟩

/-- C2: the coverage classification of the app.  In unlimited mode
`nearby` holds every dataset row and coverage holds iff the site count is
positive; in radius mode coverage holds iff some site is within the
radius; and on an empty dataset coverage is always reported false. -/
theorem claim_C2_coverage_classification (geo : DistanceFn) (q : Query) (df : List Site) :
    (q.no_limit = true →
      ((nearby geo q df).map Prod.fst = df ∧
        (covered geo q df = true ↔ 0 < df.length))) ∧
    (q.no_limit = false →
      (covered geo q df = true ↔
        ∃ s ∈ df, geo (q.lat0, q.lon0) (s.latitude, s.longitude) ≤ q.radius)) ∧
    (df = [] → covered geo q df = false) := by
  refine ⟨fun h => ⟨?_, ?_⟩, fun h => ?_, fun h => ?_⟩
  · simp only [nearby, h, if_true, assignDistance, List.map_map]
    rw [show (Prod.fst ∘ fun r : Site =>
      (r, geo (q.lat0, q.lon0) (r.latitude, r.longitude))) = id from rfl, List.map_id]
  · simp [covered, nearby, h, assignDistance, List.isEmpty_iff, List.length_pos]
  · simp only [covered, nearby, h, if_neg Bool.false_ne_true, Bool.not_eq_true',
      List.isEmpty_eq_false_iff_exists_mem]
    constructor
    · rintro ⟨x, hx⟩
      obtain ⟨hxm, hle⟩ := List.mem_filter.mp hx
      obtain ⟨b, hb, rfl⟩ := List.mem_map.mp hxm
      exact ⟨b, hb, by simpa using hle⟩
    · rintro ⟨s, hs, hle⟩
      exact ⟨(s, geo (q.lat0, q.lon0) (s.latitude, s.longitude)),
        List.mem_filter.mpr ⟨List.mem_map_of_mem _ hs, by simpa using hle⟩⟩
  · subst h
    cases hq : q.no_limit <;> simp [covered, nearby, assignDistance, hq]

/-- Witness for C2 at a one-site dataset in unlimited mode. -/
theorem claim_C2_coverage_classification_witness :
    (nearby (fun _ _ => (0 : ℚ)) ⟨1, 2, 3, true⟩ [⟨6, 3, "MTN", "4G"⟩]).map Prod.fst
        = [⟨6, 3, "MTN", "4G"⟩] ∧
      (covered (fun _ _ => (0 : ℚ)) ⟨1, 2, 3, true⟩ [⟨6, 3, "MTN", "4G"⟩] = true ↔
        0 < ([⟨6, 3, "MTN", "4G"⟩] : List Site).length) :=
  (claim_C2_coverage_classification (fun _ _ => 0) ⟨1, 2, 3, true⟩
    [⟨6, 3, "MTN", "4G"⟩]).1 rfl

/-- C10: every row of the result frame carries a per-site confidence
label computed from its own distance only; in unlimited mode the result
is exactly the whole dataset with per-site labels, independent of the
selected radius, and a site farther than 20 km appears labelled Low. -/
theorem claim_C10_per_site_confidence (geo : DistanceFn) (la lo r r' : ℚ) (df : List Site) :
    (∀ q : Query, ∀ e ∈ analyzeFull geo q df, e.2.2 = confidenceOf e.2.1) ∧
    analyzeFull geo ⟨la, lo, r, true⟩ df =
      df.map (fun s => (s, geo (la, lo) (s.latitude, s.longitude),
        confidenceOf (geo (la, lo) (s.latitude, s.longitude)))) ∧
    analyzeFull geo ⟨la, lo, r, true⟩ df = analyzeFull geo ⟨la, lo, r', true⟩ df ∧
    (∀ s ∈ df, 20 < geo (la, lo) (s.latitude, s.longitude) →
      (s, geo (la, lo) (s.latitude, s.longitude), Confidence.Low) ∈
        analyzeFull geo ⟨la, lo, r, true⟩ df) := by
  have hmap : analyzeFull geo ⟨la, lo, r, true⟩ df =
      df.map (fun s => (s, geo (la, lo) (s.latitude, s.longitude),
        confidenceOf (geo (la, lo) (s.latitude, s.longitude)))) := by
    simp only [analyzeFull, withConfidence, nearby, if_true, assignDistance, List.map_map]
    rfl
  refine ⟨?_, hmap, rfl, ?_⟩
  · intro q e he
    obtain ⟨rd, _, rfl⟩ := List.mem_map.mp he
    rfl
  · intro s hs h
    have h5 : ¬ geo (la, lo) (s.latitude, s.longitude) ≤ 5 := by linarith
    have h20 : ¬ geo (la, lo) (s.latitude, s.longitude) ≤ 20 := not_le.mpr h
    rw [hmap]
    refine List.mem_map.mpr ⟨s, hs, ?_⟩
    simp [confidenceOf, h5, h20]

/-- Witness for C10: a site 25 km away is returned (in unlimited mode
with a 30 km slider value) and labelled Low. -/
theorem claim_C10_per_site_confidence_witness :
    (⟨6, 3, "MTN", "4G"⟩, (25 : ℚ), Confidence.Low) ∈
      analyzeFull (fun _ _ => (25 : ℚ)) ⟨1, 2, 30, true⟩ [⟨6, 3, "MTN", "4G"⟩] :=
  (claim_C10_per_site_confidence (fun _ _ => (25 : ℚ)) 1 2 30 50
    [⟨6, 3, "MTN", "4G"⟩]).2.2.2 ⟨6, 3, "MTN", "4G"⟩ (by simp) (by norm_num)

/-- The minimum of a nonempty numeric column exists. -/
theorem minCol_isSome_of_ne_nil {l : List ℚ} (h : l ≠ []) : ∃ m, l.min? = some m := by
  cases hl : l.min? with
  | none => exact absurd (List.min?_eq_none_iff.mp hl) h
  | some m => exact ⟨m, rfl⟩

/-- The minimum of a numeric column is attained by one of its entries. -/
theorem minCol_mem {l : List ℚ} {m : ℚ} (h : l.min? = some m) : m ∈ l :=
  List.min?_mem (fun a b => min_choice a b) h

/-- The minimum of a numeric column bounds every entry. -/
theorem minCol_le {l : List ℚ} {m : ℚ} (h : l.min? = some m) : ∀ x ∈ l, m ≤ x :=
  fun x hx =>
    (List.le_min?_iff (fun _ _ _ => le_min_iff) h).mp (le_refl m) x hx

/-- C3: when some site is nearby, the "Nearest Network" minimum distance
`m` exists, is attained by a result row, every result row at distance `m`
carries exactly the tier the claim describes for the minimum distance
(threshold 20 km), and the code's per-row label function agrees with that
tiering everywhere. -/
theorem claim_C3_confidence_from_min_distance (geo : DistanceFn) (q : Query)
    (df : List Site) (h : nearby geo q df ≠ []) :
    ∃ m : ℚ, nearestKm geo q df = some m ∧
      (∃ e ∈ analyzeFull geo q df, e.2.1 = m) ∧
      (∀ e ∈ analyzeFull geo q df, e.2.1 = m → e.2.2 = tierSpec 20 m) ∧
      (∀ x ∈ analyzeFull geo q df, m ≤ x.2.1) ∧
      (∀ d : ℚ, confidenceOf d = tierSpec 20 d) := by
  have hmapne : (nearby geo q df).map Prod.snd ≠ [] := by
    simpa using h
  obtain ⟨m, hm⟩ := minCol_isSome_of_ne_nil hmapne
  obtain ⟨rd, hrd, hrdm⟩ := List.mem_map.mp (minCol_mem hm)
  refine ⟨m, hm, ⟨(rd.1, rd.2, confidenceOf rd.2),
    List.mem_map.mpr ⟨rd, hrd, rfl⟩, hrdm⟩, ?_, ?_, fun d => rfl⟩
  · intro e he hem
    obtain ⟨rd', _, rfl⟩ := List.mem_map.mp he
    show confidenceOf rd'.2 = tierSpec 20 m
    have : rd'.2 = m := hem
    rw [this]
    rfl
  · intro x hx
    obtain ⟨rd', hrd', rfl⟩ := List.mem_map.mp hx
    exact minCol_le hm rd'.2 (List.mem_map_of_mem Prod.snd hrd')

/-- Witness for C3 at a one-site dataset whose computed distance is 3 km. -/
theorem claim_C3_confidence_from_min_distance_witness :
    ∃ m : ℚ, nearestKm (fun _ _ => (3 : ℚ)) ⟨1, 2, 30, false⟩ [⟨6, 3, "MTN", "4G"⟩]
        = some m ∧
      ∀ e ∈ analyzeFull (fun _ _ => (3 : ℚ)) ⟨1, 2, 30, false⟩ [⟨6, 3, "MTN", "4G"⟩],
        e.2.1 = m → e.2.2 = tierSpec 20 m := by
  obtain ⟨m, hm, _, hall, _⟩ := claim_C3_confidence_from_min_distance
    (fun _ _ => (3 : ℚ)) ⟨1, 2, 30, false⟩ [⟨6, 3, "MTN", "4G"⟩] (by decide)
  exact ⟨m, hm, hall⟩

/-- C5 counterexample: an uncovered query (the lone site's computed
distance, 999 km, exceeds the 30 km radius) for which the New Tower
Recommendation tab recommends exactly the query point's own coordinates
`(6.5244, 3.3792)` — not a point differing from them. -/
theorem claim_C5_counterexample :
    covered (fun _ _ => (999 : ℚ)) ⟨6.5244, 3.3792, 30, false⟩
        [⟨10, 10, "MTN", "4G"⟩] = false ∧
      recommendation (fun _ _ => (999 : ℚ)) ⟨6.5244, 3.3792, 30, false⟩
        [⟨10, 10, "MTN", "4G"⟩] = some (6.5244, 3.3792) :=
  ⟨by decide, rfl⟩

/-- C5 amended: whenever the recommender emits a location it emits
exactly the query point's coordinates (deterministically, being a pure
function of the inputs), and — because it only fires when no site passed
the radius filter, while a site coincident with the query point would
have geodesic distance 0 ≤ radius — the recommended point is never
coincident with an existing site. -/
theorem claim_C5_recommendation_amended (geo : DistanceFn) (q : Query) (df : List Site)
    (hrad : 0 ≤ q.radius)
    (hcoinc : ∀ s ∈ df, s.latitude = q.lat0 → s.longitude = q.lon0 →
      geo (q.lat0, q.lon0) (s.latitude, s.longitude) = 0)
    (p : ℚ × ℚ) (hrec : recommendation geo q df = some p) :
    p = (q.lat0, q.lon0) ∧
      ∀ s ∈ df, ¬(s.latitude = q.lat0 ∧ s.longitude = q.lon0) := by
  unfold recommendation at hrec
  by_cases hemp : (nearby geo q df).isEmpty
  · rw [if_pos hemp] at hrec
    refine ⟨(Option.some.inj hrec).symm, ?_⟩
    rintro s hs ⟨hla, hlo⟩
    have hnil : nearby geo q df = [] := List.isEmpty_iff.mp hemp
    cases hq : q.no_limit with
    | true =>
      have hdf : df = [] := by
        have := hnil
        rw [nearby, hq, if_pos rfl, assignDistance] at this
        exact List.map_eq_nil_iff.mp this
      rw [hdf] at hs
      exact absurd hs (List.not_mem_nil s)
    | false =>
      have hd0 : geo (q.lat0, q.lon0) (s.latitude, s.longitude) = 0 :=
        hcoinc s hs hla hlo
      have hmem : (s, geo (q.lat0, q.lon0) (s.latitude, s.longitude)) ∈
          nearby geo q df := by
        rw [nearby, hq, if_neg Bool.false_ne_true]
        exact List.mem_filter.mpr ⟨List.mem_map_of_mem _ hs,
          by simpa [hd0] using hrad⟩
      rw [hnil] at hmem
      exact absurd hmem (List.not_mem_nil _)
  · rw [if_neg hemp] at hrec
    exact absurd hrec (by simp)

/-- Witness for the amended C5 at the counterexample's scenario. -/
theorem claim_C5_recommendation_amended_witness :
    ((6.5244, 3.3792) : ℚ × ℚ) = ((6.5244 : ℚ), (3.3792 : ℚ)) ∧
      ∀ s ∈ ([⟨10, 10, "MTN", "4G"⟩] : List Site),
        ¬(s.latitude = (6.5244 : ℚ) ∧ s.longitude = (3.3792 : ℚ)) := by
  have h := claim_C5_recommendation_amended (fun _ _ => (999 : ℚ))
    ⟨6.5244, 3.3792, 30, false⟩ [⟨10, 10, "MTN", "4G"⟩]
    (by norm_num)
    (by
      rintro s hs h1 h2
      simp only [List.mem_singleton] at hs
      subst hs
      exact absurd h1 (by norm_num))
    (6.5244, 3.3792) rfl
  exact h

/-- Zipping a list with its own image pairs every element with its image. -/
theorem zip_self_map {α β : Type} (l : List α) (f : α → β) :
    l.zip (l.map f) = l.map (fun a => (a, f a)) := by
  induction l with
  | nil => rfl
  | cons a t ih => simp [ih]

/-- C7 counterexample: running the analysis on a dataframe with the four
locked CSV columns changes its column list — the loaded dataset is not
identical before and after the analysis. -/
theorem claim_C7_counterexample :
    (assignDistanceColumn (fun _ _ => (1 : ℚ)) ⟨6.5244, 3.3792, 30, false⟩
        ⟨["Latitude", "Longitude", "Network_Operator", "Network_Generation"],
          [[Cell.num 6.53, Cell.num 3.38, Cell.str "MTN", Cell.str "4G"]]⟩).cols ≠
      ["Latitude", "Longitude", "Network_Operator", "Network_Generation"] := by
  decide

/-- C7 amended: the analysis does mutate the loaded dataframe, but only
by appending a `distance_km` column on the right: the original columns
and every original cell value are preserved (each original row is a
prefix of the corresponding new row). -/
theorem claim_C7_mutation_appends_distance_column (geo : DistanceFn) (q : Query)
    (df : DataFrame) (h : df.cols.contains "distance_km" = false) :
    (assignDistanceColumn geo q df).cols = df.cols ++ ["distance_km"] ∧
      (assignDistanceColumn geo q df).rows =
        df.rows.map (fun r => r ++ [Cell.num (geo (q.lat0, q.lon0)
          ((df.getCell r "Latitude").asNum, (df.getCell r "Longitude").asNum))]) := by
  unfold assignDistanceColumn DataFrame.setColumn
  rw [if_neg (by simpa using h)]
  refine ⟨rfl, ?_⟩
  rw [zip_self_map, List.map_map]
  rfl

/-- Witness for the amended C7 on the counterexample's dataframe. -/
theorem claim_C7_mutation_appends_distance_column_witness :
    (assignDistanceColumn (fun _ _ => (1 : ℚ)) ⟨6.5244, 3.3792, 30, false⟩
        ⟨["Latitude", "Longitude", "Network_Operator", "Network_Generation"],
          [[Cell.num 6.53, Cell.num 3.38, Cell.str "MTN", Cell.str "4G"]]⟩).cols =
      ["Latitude", "Longitude", "Network_Operator", "Network_Generation"]
        ++ ["distance_km"] :=
  (claim_C7_mutation_appends_distance_column (fun _ _ => (1 : ℚ))
    ⟨6.5244, 3.3792, 30, false⟩
    ⟨["Latitude", "Longitude", "Network_Operator", "Network_Generation"],
      [[Cell.num 6.53, Cell.num 3.38, Cell.str "MTN", Cell.str "4G"]]⟩
    (by decide)).1

/-- C8: there is no validation anywhere in `app.py` — the analysis
accepts the out-of-range latitude 999 and computes a distance for it
(via the geodesic routine) instead of failing before any spatial
computation. -/
theorem claim_C8_no_validation_distance_computed (geo : DistanceFn) (s : Site) :
    analyzeLocation geo [s] 999 3.3792 30 true =
      [(s, geo (999, 3.3792) (s.latitude, s.longitude),
        confidenceOf (geo (999, 3.3792) (s.latitude, s.longitude)))] := rfl

/-- Summing a constantly-zero image gives zero. -/
theorem sum_map_zero {α : Type} (L : List α) : (L.map (fun _ => (0 : ℕ))).sum = 0 := by
  induction L with
  | nil => rfl
  | cons a t ih => simp [ih]

/-- Pointwise sums distribute over a mapped summation. -/
theorem sum_map_add {α : Type} (L : List α) (f g : α → ℕ) :
    (L.map (fun x => f x + g x)).sum = (L.map f).sum + (L.map g).sum := by
  induction L with
  | nil => rfl
  | cons a t ih =>
    simp only [List.map_cons, List.sum_cons, ih]
    omega

/-- An equality indicator over a list avoiding `g0` sums to zero. -/
theorem sum_if_eq_zero (g0 : String) :
    ∀ L : List String, g0 ∉ L →
      (L.map (fun g => if g0 = g then (1 : ℕ) else 0)).sum = 0 := by
  intro L
  induction L with
  | nil => intro _; rfl
  | cons b t ih =>
    intro h
    simp only [List.map_cons, List.sum_cons]
    rw [if_neg (fun he => h (by rw [he]; exact List.mem_cons_self b t)),
      ih (fun hm => h (List.mem_cons_of_mem b hm))]

/-- An equality indicator over a duplicate-free list containing `g0`
sums to one. -/
theorem sum_if_eq_one (g0 : String) :
    ∀ L : List String, L.Nodup → g0 ∈ L →
      (L.map (fun g => if g0 = g then (1 : ℕ) else 0)).sum = 1 := by
  intro L
  induction L with
  | nil => intro _ h; exact absurd h (List.not_mem_nil g0)
  | cons b t ih =>
    intro hnd hmem
    simp only [List.map_cons, List.sum_cons]
    rcases List.mem_cons.mp hmem with rfl | hmem'
    · rw [if_pos rfl, sum_if_eq_zero g0 t (List.nodup_cons.mp hnd).1]
    · have hb : g0 ≠ b := fun he =>
        (List.nodup_cons.mp hnd).1 (he ▸ hmem')
      rw [if_neg hb, ih (List.nodup_cons.mp hnd).2 hmem']

/-- Each site contributes exactly one unit: either to the region it
resolves to, or to the Unknown bucket. -/
theorem density_site_unit (resolve : Site → Option String) (regions : List String)
    (a : Site) (hnd : regions.Nodup)
    (ha : ∀ g, resolve a = some g → g ∈ regions) :
    (regions.map (fun g => if resolve a = some g then (1 : ℕ) else 0)).sum
      + (if resolve a = none then (1 : ℕ) else 0) = 1 := by
  cases hra : resolve a with
  | none =>
    rw [if_pos rfl,
      show (regions.map fun g => if (none : Option String) = some g
          then (1 : ℕ) else 0) = regions.map (fun _ => (0 : ℕ)) from
        List.map_congr_left (fun g _ => by simp),
      sum_map_zero]
  | some g0 =>
    have hg0 : g0 ∈ regions := ha g0 hra
    rw [if_neg (by simp),
      show (regions.map fun g => if some g0 = some g then (1 : ℕ) else 0)
          = regions.map (fun g => if g0 = g then (1 : ℕ) else 0) from
        List.map_congr_left (fun g _ => by simp),
      sum_if_eq_one g0 regions hnd hg0]

/-- The per-region counts plus the Unknown count total the site count. -/
theorem density_sum_aux (resolve : Site → Option String) (regions : List String)
    (hnd : regions.Nodup) :
    ∀ sites : List Site,
      (∀ s ∈ sites, ∀ g, resolve s = some g → g ∈ regions) →
      (regions.map (fun g => regionCount resolve sites g)).sum
          + unknownCount resolve sites = sites.length := by
  intro sites
  induction sites with
  | nil =>
    intro _
    simp [regionCount, unknownCount, sum_map_zero]
  | cons a t ih =>
    intro hrange
    have hrt : ∀ s ∈ t, ∀ g, resolve s = some g → g ∈ regions :=
      fun s hs => hrange s (List.mem_cons_of_mem a hs)
    have hsum := ih hrt
    have hone := density_site_unit resolve regions a hnd
      (hrange a (List.mem_cons_self a t))
    simp only [regionCount, unknownCount, List.countP_cons, List.length_cons] at *
    rw [show (regions.map fun g =>
        t.countP (fun s => decide (resolve s = some g))
          + if decide (resolve a = some g) = true then 1 else 0) =
      regions.map (fun g => t.countP (fun s => decide (resolve s = some g))
          + if resolve a = some g then 1 else 0) from
      List.map_congr_left (fun g _ => by simp), sum_map_add]
    have hn : (if decide (resolve a = none) = true then (1 : ℕ) else 0) =
        (if resolve a = none then (1 : ℕ) else 0) := by simp
    omega

/-- C9: over any duplicate-free region collection and any resolver that
only answers regions of that collection, the density report's counts plus
the Unknown count sum to the number of sites; every region appears in the
report with its count, and a region matched by no site appears with
count 0. -/
theorem claim_C9_density_totals (resolve : Site → Option String)
    (regions : List String) (sites : List Site)
    (hnd : regions.Nodup)
    (hrange : ∀ s ∈ sites, ∀ g, resolve s = some g → g ∈ regions) :
    ((aggregate resolve regions sites).map Prod.snd).sum
        + unknownCount resolve sites = sites.length ∧
      (∀ g ∈ regions, (g, regionCount resolve sites g) ∈
        aggregate resolve regions sites) ∧
      (∀ g ∈ regions, (∀ s ∈ sites, resolve s ≠ some g) →
        (g, 0) ∈ aggregate resolve regions sites) := by
  refine ⟨?_, ?_, ?_⟩
  · have : (aggregate resolve regions sites).map Prod.snd =
        regions.map (fun g => regionCount resolve sites g) := by
      rw [aggregate, List.map_map]
      exact List.map_congr_left (fun g _ => rfl)
    rw [this]
    exact density_sum_aux resolve regions hnd sites hrange
  · intro g hg
    exact List.mem_map.mpr ⟨g, hg, rfl⟩
  · intro g hg hnone
    have hz : regionCount resolve sites g = 0 :=
      List.countP_eq_zero.mpr (fun s hs => by simp [hnone s hs])
    have hmem : (g, regionCount resolve sites g) ∈ aggregate resolve regions sites :=
      List.mem_map.mpr ⟨g, hg, rfl⟩
    rw [hz] at hmem
    exact hmem

/-- Witness for C9: two sites both resolved to Lagos over the regions
Lagos and Kano; counts 2 and 0 sum with the empty Unknown bucket to 2. -/
theorem claim_C9_density_totals_witness :
    ((aggregate (fun _ => some "Lagos") ["Lagos", "Kano"]
        [⟨6, 3, "MTN", "4G"⟩, ⟨7, 4, "Glo", "3G"⟩]).map Prod.snd).sum
      + unknownCount (fun _ => some "Lagos")
          [⟨6, 3, "MTN", "4G"⟩, ⟨7, 4, "Glo", "3G"⟩]
      = ([⟨6, 3, "MTN", "4G"⟩, ⟨7, 4, "Glo", "3G"⟩] : List Site).length := by
  have h := claim_C9_density_totals (fun _ => some "Lagos") ["Lagos", "Kano"]
    [⟨6, 3, "MTN", "4G"⟩, ⟨7, 4, "Glo", "3G"⟩]
    (by decide)
    (by
      intro s hs g hg
      have hg' : "Lagos" = g := Option.some.inj hg
      rw [← hg']
      exact List.mem_cons_self "Lagos" ["Kano"])
  exact h.1

end CoverageApp
